import Mathlib

/-!
Shallow embedding of `ffchapter.py`, a chapter-encode job orchestrator:
it derives per-chapter work items from media metadata, launches one detached
transcode process per chapter, persists a job ledger (`ffjob.json`), and a
separate status mode reconstructs progress from each job's log file.

Modelling conventions:
- Python floats are modelled as `ℚ`; chapter start/end times (strings in the
  ffprobe JSON) are carried as their numeric values.
- A raised, uncaught Python exception is modelled by `Option`-valued
  functions returning `none`.
- The filesystem's log directory is modelled as a map from chapter title to
  `Option (List String)` (the lines of `log/<title>.log`, `none` when the
  file does not exist and `open` would raise `FileNotFoundError`).
- `json.dump` / `json.load` are modelled at the JSON-value level by an
  explicit JSON AST (`JVal`), text serialization being faithful for the
  values involved.
- Python string primitives (`str.replace`, `str.split` with an explicit
  separator) are re-implemented over `List Char` by structural recursion so
  that every definition evaluates inside the kernel.
-/

/-- When `sep` is a leading run of `s`, the remainder of `s`; otherwise
`none`.  Helper for the Python `str.split` model. -/
def dropSep : List Char → List Char → Option (List Char)
  | [], s => some s
  | _ :: _, [] => none
  | p :: ps, c :: cs => if p = c then dropSep ps cs else none

/-- Fuel-driven worker for Python `str.split(sep)` with a non-empty
separator: scans left to right, cutting at each non-overlapping occurrence
of `sep`.  `fuel ≥ length of the scanned list` makes the fuel branch
unreachable. -/
def splitSepFuel (sep : List Char) : Nat → List Char → List Char → List (List Char)
  | _, [], acc => [acc.reverse]
  | 0, s, acc => [acc.reverse ++ s]
  | fuel + 1, c :: cs, acc =>
    match dropSep sep (c :: cs) with
    | some rest => acc.reverse :: splitSepFuel sep fuel rest []
    | none => splitSepFuel sep fuel cs (c :: acc)

/-- Python `s.split(sep)` for a non-empty separator string: keeps empty
fields, non-overlapping left-to-right scan. -/
def pySplit (s sep : String) : List String :=
  (splitSepFuel sep.data (s.data.length + 1) s.data []).map (fun l => ⟨l⟩)

/-- Model of `title.replace(" ", "_")` from line 129 of the source: every space
character (U+0020) becomes an underscore; no other character is touched. -/
def replaceSpace (t : String) : String :=
  ⟨t.data.map (fun c => if c = ' ' then '_' else c)⟩

/-- Spec-side transform, for comparison with `replaceSpace`: the spec's
words say titles are derived by replacing whitespace in the raw chapter
title with the separator, i.e. every whitespace character becomes an
underscore. -/
def replaceWhitespaceSpec (t : String) : String :=
  ⟨t.data.map (fun c => if c.isWhitespace then '_' else c)⟩

/-- Numeric value of a decimal digit character. -/
def digitVal (c : Char) : ℕ := c.toNat - 48

/-- Whether every character of the list is a decimal digit. -/
def allDigits (cs : List Char) : Bool := cs.all (·.isDigit)

/-- Value of a digit string read in base 10. -/
def digitsToNat (cs : List Char) : ℕ := cs.foldl (fun a c => a * 10 + digitVal c) 0

/-- Syntactic part of the Python `float()` model: sign flag, integer-part
value, fractional-part value and fractional-part digit count.  `none`
models the `ValueError` raised on any shape other than an optional sign
followed by digits with an optional fractional part. -/
def pyFloatParts (s : String) : Option (Bool × ℕ × ℕ × ℕ) :=
  let signBody : Bool × List Char :=
    match s.data with
    | c :: rest =>
      if c = '-' then (true, rest)
      else if c = '+' then (false, rest)
      else (false, c :: rest)
    | [] => (false, [])
  match splitSepFuel ['.'] (signBody.2.length + 1) signBody.2 [] with
  | [ip] =>
    if !ip.isEmpty && allDigits ip then
      some (signBody.1, digitsToNat ip, 0, 0)
    else none
  | [ip, fp] =>
    if (!ip.isEmpty || !fp.isEmpty) && allDigits ip && allDigits fp then
      some (signBody.1, digitsToNat ip, digitsToNat fp, fp.length)
    else none
  | _ => none

/-- Rational value of a parsed decimal literal. -/
def ratOfParts (p : Bool × ℕ × ℕ × ℕ) : ℚ :=
  (if p.1 then -1 else 1) * ((p.2.1 : ℚ) + (p.2.2.1 : ℚ) / 10 ^ p.2.2.2)

/-- Modelled behaviour of Python `float()` on the decimal literals that
occur in this program. -/
def pyFloat (s : String) : Option ℚ :=
  (pyFloatParts s).map ratOfParts

/-- A raw chapter as returned by ffprobe: `chapter['start_time']`,
`chapter['end_time']` (numeric value of the JSON strings) and
`chapter['tags']['title']`. -/
structure ChapterMeta where
  start_time : ℚ
  end_time : ℚ
  title : String
  deriving DecidableEq

/-- One entry of the `ffmpeg_commands` list built by
`generate_ffmpeg_commands`: `{"title", "length_in_seconds", "command"}`. -/
structure ChapterJob where
  title : String
  length_in_seconds : ℚ
  command : List String
  deriving DecidableEq

/-- The argument list built at lines 134-152 of the source.  Paths are
modelled relative to the working directory (`get_abs_path` prefixes the
cwd); the numeric start/end values are rendered back to strings for the
`-ss`/`-to` slots. -/
def baseCommand (c : ChapterMeta) (input_file preset crf svt_av1_params : String) :
    List String :=
  ["ffmpeg",
   "-ss", toString c.start_time,
   "-to", toString c.end_time,
   "-i", input_file,
   "-c:v", "libsvtav1",
   "-preset", preset,
   "-crf", crf,
   "-g", "360",
   "-pix_fmt", "yuv420p10le",
   "-svtav1-params", svt_av1_params,
   "-c:a", "libopus",
   "-ac", "6",
   "-b:a", "256K",
   "-vbr:a", "2",
   "-sn",
   "-reset_timestamps", "1",
   "tmp/" ++ replaceSpace c.title ++ ".mkv"]

/-- Model of `generate_ffmpeg_commands` (lines 125-160): one `ChapterJob` per
chapter, title space-substituted, `length_in_seconds` =
`float(end_time) - float(start_time)`. -/
def generate_ffmpeg_commands (chapters : List ChapterMeta)
    (input_file svt_av1_params preset crf : String) : List ChapterJob :=
  chapters.map (fun c =>
    { title := replaceSpace c.title
      length_in_seconds := c.end_time - c.start_time
      command := baseCommand c input_file preset crf svt_av1_params })

/-- The persisted `ffjob.json` record: `{"chapters": [...],
"total_length_in_seconds": ..., "executed_datetime": ...}`. -/
structure FFJobInfo where
  chapters : List ChapterJob
  total_length_in_seconds : ℚ
  executed_datetime : String
  deriving DecidableEq

/-- Model of `save_ffjob_info` (lines 162-171): fills in `total_length_in_seconds`
and `executed_datetime` and writes the record.  Any exception while writing
is caught and only printed, so the function itself never raises; `writeOk`
models whether the write to `ffjob.json` succeeded (`none` = nothing was
persisted, but control returns normally either way). -/
def save_ffjob_info (chapters : List ChapterJob) (total_length : ℚ)
    (now : String) (writeOk : Bool) : Option FFJobInfo :=
  if writeOk then some ⟨chapters, total_length, now⟩ else none

/-- The parsed ffprobe output used by dispatch: `json_output['chapters']`
and `float(json_output['format']['duration'])`. -/
structure ProbeOutput where
  chapters : List ChapterMeta
  duration : ℚ
  deriving DecidableEq

/-- Observable outcome of the dispatch branch of `main`: which jobs were
handed to `execute_ffmpeg_command`, what (if anything) was persisted to
`ffjob.json`, and the process exit status. -/
structure DispatchResult where
  launched : List ChapterJob
  ledger : Option FFJobInfo
  exitCode : Nat
  deriving DecidableEq

/-- The dispatch (default) branch of `main` (lines 252-269): generate the
commands, launch every one in the background, then save the ledger.  No
statement on this path calls `exit(1)`: a zero-chapter input falls through
like any other, and a save failure is swallowed inside `save_ffjob_info`,
so the exit code is 0 in every case. -/
def dispatchMain (probe : ProbeOutput) (input_file svt_av1_params preset crf : String)
    (now : String) (writeOk : Bool) : DispatchResult :=
  let ffmpeg_commands :=
    generate_ffmpeg_commands probe.chapters input_file svt_av1_params preset crf
  { launched := ffmpeg_commands
    ledger := save_ffjob_info ffmpeg_commands probe.duration now writeOk
    exitCode := 0 }

/-- Model of `parse_log_file` (lines 196-205), applied to the list of lines read
from the log file.  A missing marker substring makes the Python indexing
`split(...)[1]` raise `IndexError`, modelled as `none`; an empty file takes
the fall-through `return "N/A", "00:00:00.00"`. -/
def parse_log_file (lines : List String) : Option (String × String) :=
  match lines.getLast? with
  | none => some ("N/A", "00:00:00.00")
  | some last_line =>
    match (pySplit last_line "fps=")[1]? with
    | none => none
    | some afterFps =>
      let fps := (pySplit afterFps " ").headD ""
      match (pySplit last_line "time=")[1]? with
      | none => none
      | some afterTime =>
        let time_encoded := (pySplit afterTime " ").headD ""
        some (fps, time_encoded)

/-- Whether the marker string `m` occurs as a substring of `s`, expressed
through the same split that the source performs: `s.split(m)` has a second
field exactly when `m` occurs in `s`. -/
def containsMarker (s m : String) : Bool := decide (2 ≤ (pySplit s m).length)

/-- Model of `sum(x * float(t) for x, t in zip([3600, 60, 1], time.split(":")))`
(line 222): weighted sum of the parsed components; a `float()` failure on
any component propagates. -/
def sumWeighted : List (ℚ × String) → Option ℚ
  | [] => some 0
  | (x, t) :: rest =>
    (pyFloat t).bind fun v => (sumWeighted rest).map fun r => x * v + r

/-- Seconds encoded according to a `time=` field, as computed at line 222:
components are weighted 3600, 60, 1 in order (`zip` truncates to the
shorter list). -/
def timeComponentsSeconds (time_encoded : String) : Option ℚ :=
  sumWeighted (List.zip [3600, 60, 1] (pySplit time_encoded ":"))

/-- The per-chapter body of the loop in `check_encoding_status`
(lines 214-223): open and parse the chapter's log, then convert the
`time=` field to seconds.  `none` models any uncaught exception
(`FileNotFoundError` from `open`, `IndexError` from the marker split,
`ValueError` from `float`). -/
def itemLogStatus (logs : String → Option (List String)) (c : ChapterJob) :
    Option (String × ℚ) :=
  (logs c.title).bind fun lines =>
    (parse_log_file lines).bind fun ft =>
      (timeComponentsSeconds ft.2).map fun secs => (ft.1, secs)

/-- Encoded seconds a single chapter contributes to the running total. -/
def itemEncodedSeconds (logs : String → Option (List String)) (c : ChapterJob) :
    Option ℚ :=
  (itemLogStatus logs c).map (·.2)

/-- The loop of `check_encoding_status` over `ffjob_info["chapters"]`, in
list order; the first uncaught exception aborts the whole traversal. -/
def chapterStatuses (logs : String → Option (List String)) :
    List ChapterJob → Option (List (String × String × ℚ))
  | [] => some []
  | c :: rest =>
    (itemLogStatus logs c).bind fun st =>
      (chapterStatuses logs rest).map fun tail => (c.title, st.1, st.2) :: tail

/-- What `check_encoding_status` prints, per chapter and in aggregate. -/
structure StatusReport where
  perChapter : List (String × String × ℚ)
  totalEncodedSeconds : ℚ
  completionPercent : ℚ
  deriving DecidableEq

/-- Model of `check_encoding_status` (lines 211-235): accumulate every chapter's
encoded seconds and report `total / total_length_in_seconds * 100` as the
completion percentage (line 231), with no clamping.  (In Lean, division by
zero yields zero where Python would raise `ZeroDivisionError`; every
statement proved below assumes a positive total length.) -/
def check_encoding_status (logs : String → Option (List String)) (info : FFJobInfo) :
    Option StatusReport :=
  (chapterStatuses logs info.chapters).map fun sts =>
    let total := (sts.map fun t => t.2.2).sum
    { perChapter := sts
      totalEncodedSeconds := total
      completionPercent := total / info.total_length_in_seconds * 100 }

/-- JSON values, the level at which `json.dump`/`json.load` round-trip the
ledger. -/
inductive JVal where
  | str : String → JVal
  | num : ℚ → JVal
  | arr : List JVal → JVal
  | obj : List (String × JVal) → JVal

/-- Field access `j[k]` on a JSON object. -/
def jField (k : String) : JVal → Option JVal
  | .obj kvs => kvs.lookup k
  | _ => none

/-- A JSON value expected to be a string. -/
def jStr : JVal → Option String
  | .str s => some s
  | _ => none

/-- A JSON value expected to be a number. -/
def jNum : JVal → Option ℚ
  | .num q => some q
  | _ => none

/-- Serialization of one `ChapterJob`, as `json.dump` writes it. -/
def encodeJob (c : ChapterJob) : JVal :=
  .obj [("title", .str c.title),
        ("length_in_seconds", .num c.length_in_seconds),
        ("command", .arr (c.command.map .str))]

/-- Serialization of the whole `ffjob.json` record, as `json.dump` writes
it at line 168 after `save_ffjob_info` has filled in the totals. -/
def encodeFfjob (i : FFJobInfo) : JVal :=
  .obj [("chapters", .arr (i.chapters.map encodeJob)),
        ("total_length_in_seconds", .num i.total_length_in_seconds),
        ("executed_datetime", .str i.executed_datetime)]

/-- Reading back a JSON array of strings, element by element. -/
def jStrList : List JVal → Option (List String)
  | [] => some []
  | j :: rest => (jStr j).bind fun s => (jStrList rest).map fun ss => s :: ss

/-- Reading one chapter record back from JSON, the accesses the status
path performs (`chapter["title"]`, `chapter["length_in_seconds"]`,
`chapter["command"]`). -/
def decodeJob (j : JVal) : Option ChapterJob :=
  (jField "title" j).bind fun tj =>
    (jStr tj).bind fun t =>
      (jField "length_in_seconds" j).bind fun lj =>
        (jNum lj).bind fun l =>
          (jField "command" j).bind fun cj =>
            match cj with
            | .arr xs => (jStrList xs).map fun cmd => ⟨t, l, cmd⟩
            | _ => none

/-- Reading back the JSON array of chapter records, element by element. -/
def decodeJobs : List JVal → Option (List ChapterJob)
  | [] => some []
  | j :: rest => (decodeJob j).bind fun c => (decodeJobs rest).map fun cs => c :: cs

/-- Model of `get_ffjob_info` (lines 186-193) composed with the field reads of its
consumers: reconstruct the full `FFJobInfo` from the JSON value stored in
`ffjob.json`. -/
def get_ffjob_info (j : JVal) : Option FFJobInfo :=
  (jField "chapters" j).bind fun cj =>
    match cj with
    | .arr xs =>
      (decodeJobs xs).bind fun chs =>
        (jField "total_length_in_seconds" j).bind fun tj =>
          (jNum tj).bind fun total =>
            (jField "executed_datetime" j).bind fun dj =>
              (jStr dj).map fun dt => ⟨chs, total, dt⟩
    | _ => none

/-- The JSON value `save_ffjob_info` writes to `ffjob.json` for a batch. -/
def save_ffjob_file (chapters : List ChapterJob) (total_length : ℚ)
    (now : String) : JVal :=
  encodeFfjob ⟨chapters, total_length, now⟩

/-- Working-directory state the cleanup path touches: the contents of the
`log` and `tmp` directories and the `ffjob.json` ledger file. -/
structure WorkDirState where
  logFiles : List String
  tmpFiles : List String
  ledgerFile : Option FFJobInfo
  deriving DecidableEq

/-- Model of `cleanup_directories` (lines 30-42): empties the `log` and `tmp`
directories and removes `ffjob.json`.  Defined from the source, but note
that `main` never calls it: its only call site (line 245) is commented
out. -/
def cleanup_directories (_s : WorkDirState) : WorkDirState :=
  { logFiles := [], tmpFiles := [], ledgerFile := none }

/-- The confirmation-gated tail of the finalize branch of `main`
(lines 244-248): whatever `user_confirmation()` returns, the working
directory is left untouched — the confirmed branch is `pass` because the
`cleanup_directories()` call is commented out. -/
def finalize_cleanup_step (confirmed : Bool) (s : WorkDirState) : WorkDirState :=
  if confirmed then s else s

/-- Model of `sorted(glob(...))` at line 82: Python's `sorted` on the discovered
chapter files, i.e. the unique lexicographically nondecreasing reordering
(string comparison is lexicographic by code point). -/
def sortedChapterFiles (chapter_files : List String) : List String :=
  List.insertionSort (· ≤ ·) chapter_files

/-- The single-quote character, used around each path in the concat
manifest. -/
def quoteChar : String := String.singleton (Char.ofNat 39)

/-- One line of the concat manifest (line 88). -/
def manifestLine (path : String) : String :=
  "file " ++ quoteChar ++ path ++ quoteChar

/-- The concat manifest `concatenate_chapters` writes (lines 82-88): one
`file '...'` line per discovered chapter file, in sorted order. -/
def concatManifest (chapter_files : List String) : List String :=
  (sortedChapterFiles chapter_files).map manifestLine

/-- A concrete log map for the status examples: every chapter's log ends
with a well-formed progress line reporting ten encoded seconds. -/
def statusLogsEx : String → Option (List String) :=
  fun _ => some ["frame=1 fps=20 q=1 time=00:00:10.00 bitrate=1"]

/-- A concrete one-chapter ledger whose source is five seconds long. -/
def statusInfoEx : FFJobInfo :=
  ⟨[⟨"A", 10, []⟩], 5, "2024-01-01 00:00:00"⟩

/-- The status report the code produces for `statusInfoEx` under
`statusLogsEx`: ten encoded seconds against a five-second total, hence a
completion percentage of 200. -/
def statusReportEx : StatusReport :=
  ⟨[("A", "20", 10)], 10, 200⟩

/-- Claim C1, counterexample to the claim as stated: for a probe result
with zero chapters, the dispatch branch does not fail — it exits with
status 0 and persists a ledger whose chapter list is empty. -/
theorem c1_zero_chapters_counterexample :
    (dispatchMain ⟨[], 100⟩ "in.mkv" "tune=0" "1" "16" "2024-01-01 00:00:00" true).exitCode = 0
    ∧ (dispatchMain ⟨[], 100⟩ "in.mkv" "tune=0" "1" "16" "2024-01-01 00:00:00" true).ledger
        = some ⟨[], 100, "2024-01-01 00:00:00"⟩ :=
  ⟨rfl, rfl⟩

/-- Claim C1 (amended): metadata extraction yielding zero chapters is not
rejected; the dispatch branch launches zero jobs, still persists a ledger
with an empty chapter list (when the write succeeds) and exits with
status 0 — there is no NoChaptersFound failure. -/
theorem c1_zero_chapters_dispatch (probe : ProbeOutput)
    (input_file svt_av1_params preset crf now : String)
    (h : probe.chapters = []) :
    (dispatchMain probe input_file svt_av1_params preset crf now true).launched = []
    ∧ (dispatchMain probe input_file svt_av1_params preset crf now true).ledger
        = some ⟨[], probe.duration, now⟩
    ∧ (dispatchMain probe input_file svt_av1_params preset crf now true).exitCode = 0 := by
  refine ⟨?_, ?_, rfl⟩ <;>
    simp [dispatchMain, generate_ffmpeg_commands, save_ffjob_info, h]

/-- Claim C1, witness: the amended statement applied to a concrete
zero-chapter probe result. -/
theorem c1_zero_chapters_dispatch_witness :
    (ProbeOutput.mk [] 90).chapters = []
    ∧ ((dispatchMain ⟨[], 90⟩ "video.mkv" "tune=0" "2" "18" "2024-02-01 00:00:00" true).launched = []
      ∧ (dispatchMain ⟨[], 90⟩ "video.mkv" "tune=0" "2" "18" "2024-02-01 00:00:00" true).ledger
          = some ⟨[], (ProbeOutput.mk [] 90).duration, "2024-02-01 00:00:00"⟩
      ∧ (dispatchMain ⟨[], 90⟩ "video.mkv" "tune=0" "2" "18" "2024-02-01 00:00:00" true).exitCode = 0) :=
  ⟨rfl, c1_zero_chapters_dispatch ⟨[], 90⟩ "video.mkv" "tune=0" "2" "18"
    "2024-02-01 00:00:00" rfl⟩

/-- Claim C2: even with explicit confirmation the finalize branch removes
nothing, because the `cleanup_directories()` call at line 245 is commented
out; `cleanup_directories` itself would have emptied the log and tmp
directories and removed the ledger. -/
theorem c2_confirmed_cleanup_is_noop (s : WorkDirState) :
    finalize_cleanup_step true s = s
    ∧ finalize_cleanup_step false s = s
    ∧ cleanup_directories s = ⟨[], [], none⟩ :=
  ⟨rfl, rfl, rfl⟩

/-- Claim C4, counterexample to the claim as stated: a tab character is
whitespace, but `title.replace(" ", "_")` only replaces the space
character, so a chapter titled with an embedded tab keeps the tab instead
of the claimed whitespace-to-underscore substitution. -/
theorem c4_whitespace_counterexample :
    (generate_ffmpeg_commands [⟨0, 1, "a\tb"⟩] "in.mkv" "tune=0" "1" "16").map
        (fun j => j.title)
      ≠ [replaceWhitespaceSpec "a\tb"] := by
  decide

/-- Claim C4 (amended): for every chapter list the planner produces
exactly one work item per chapter, in order; each title is the raw title
with every space character (U+0020) replaced by an underscore, and each
`length_in_seconds` equals the chapter's end time minus its start time. -/
theorem c4_planner_work_items (chapters : List ChapterMeta)
    (input_file svt_av1_params preset crf : String) :
    (generate_ffmpeg_commands chapters input_file svt_av1_params preset crf).length
        = chapters.length
    ∧ (generate_ffmpeg_commands chapters input_file svt_av1_params preset crf).map
        (fun j => j.title) = chapters.map (fun c => replaceSpace c.title)
    ∧ (generate_ffmpeg_commands chapters input_file svt_av1_params preset crf).map
        (fun j => j.length_in_seconds)
        = chapters.map (fun c => c.end_time - c.start_time) := by
  refine ⟨?_, ?_, ?_⟩ <;> simp [generate_ffmpeg_commands]

/-- Decoding a list of serialized strings recovers the original list. -/
theorem jStrList_map_str (xs : List String) :
    jStrList (xs.map JVal.str) = some xs := by
  induction xs with
  | nil => rfl
  | cons x xs ih => simp [jStrList, ih, jStr]

/-- Decoding a serialized chapter record recovers the original record. -/
theorem decodeJob_encodeJob (c : ChapterJob) : decodeJob (encodeJob c) = some c := by
  simp [decodeJob, encodeJob, jField, List.lookup, jStr, jNum, jStrList_map_str]

/-- Decoding a list of serialized chapter records recovers the list. -/
theorem decodeJobs_map_encodeJob (cs : List ChapterJob) :
    decodeJobs (cs.map encodeJob) = some cs := by
  induction cs with
  | nil => rfl
  | cons c cs ih => simp [decodeJobs, decodeJob_encodeJob c, ih]

/-- Claim C5: ledger round-trip — loading the JSON record written for a
batch returns exactly the same chapter sequence (titles, lengths,
commands), the same total length and the same dispatch timestamp. -/
theorem c5_ledger_round_trip (chapters : List ChapterJob) (total_length : ℚ)
    (now : String) :
    get_ffjob_info (save_ffjob_file chapters total_length now)
      = some ⟨chapters, total_length, now⟩ := by
  simp [get_ffjob_info, save_ffjob_file, encodeFfjob, jField, List.lookup,
        decodeJobs_map_encodeJob, jNum, jStr]

/-- Evaluation rule for the `float()` model once the literal has been
parsed. -/
theorem pyFloat_eq_of_parts {s : String} {b : Bool} {ip fp fl : ℕ}
    (h : pyFloatParts s = some (b, ip, fp, fl)) :
    pyFloat s = some (ratOfParts (b, ip, fp, fl)) := by
  rw [pyFloat, h]; rfl

/-- The all-zero time string of the empty-log default converts to zero
seconds. -/
theorem timeComponentsSeconds_zero : timeComponentsSeconds "00:00:00.00" = some 0 := by
  rw [timeComponentsSeconds,
      show pySplit "00:00:00.00" ":" = ["00", "00", "00.00"] from by decide]
  simp only [List.zip_cons_cons, List.zip_nil_right, sumWeighted,
    pyFloat_eq_of_parts (show pyFloatParts "00" = some (false, 0, 0, 0) from by decide),
    pyFloat_eq_of_parts (show pyFloatParts "00.00" = some (false, 0, 0, 2) from by decide),
    Option.some_bind, Option.map_some']
  norm_num [ratOfParts]

/-- Claim C6: an existing but empty log file parses without error: the
reported encoding speed is the unknown marker "N/A" and the encoded time
converts to zero seconds. -/
theorem c6_empty_log_defaults (logs : String → Option (List String)) (c : ChapterJob)
    (h : logs c.title = some []) :
    parse_log_file [] = some ("N/A", "00:00:00.00")
    ∧ itemLogStatus logs c = some ("N/A", 0) := by
  refine ⟨rfl, ?_⟩
  rw [itemLogStatus, h, Option.some_bind,
      show parse_log_file [] = some ("N/A", "00:00:00.00") from rfl,
      Option.some_bind, timeComponentsSeconds_zero]
  rfl

/-- Claim C6, witness: the empty-log default at a concrete chapter whose
log exists and has zero lines. -/
theorem c6_empty_log_defaults_witness :
    ((fun _ => some ([] : List String)) (ChapterJob.mk "A" 10 []).title = some [])
    ∧ (parse_log_file [] = some ("N/A", "00:00:00.00")
      ∧ itemLogStatus (fun _ => some []) ⟨"A", 10, []⟩ = some ("N/A", 0)) :=
  ⟨rfl, c6_empty_log_defaults (fun _ => some []) ⟨"A", 10, []⟩ rfl⟩

/-- A missing marker substring makes the Python `split(...)[1]` indexing
fail: the split has no second field. -/
theorem split_second_eq_none {s m : String} (h : containsMarker s m = false) :
    (pySplit s m)[1]? = none := by
  rw [containsMarker, decide_eq_false_iff_not] at h
  exact List.getElem?_eq_none (by omega)

/-- A non-empty log whose last line lacks either marker substring makes
`parse_log_file` raise (`IndexError`), modelled as `none`. -/
theorem parse_log_file_none_of_no_marker {lines : List String} {last_line : String}
    (hlast : lines.getLast? = some last_line)
    (hm : containsMarker last_line "fps=" = false
        ∨ containsMarker last_line "time=" = false) :
    parse_log_file lines = none := by
  rw [parse_log_file, hlast]
  dsimp only
  rcases hm with h | h
  · rw [split_second_eq_none h]
  · cases hfps : (pySplit last_line "fps=")[1]? with
    | none => rfl
    | some afterFps => dsimp only; rw [split_second_eq_none h]

/-- An item whose log processing raises aborts the whole chapter
traversal of `check_encoding_status`. -/
theorem chapterStatuses_eq_none_of_mem {logs : String → Option (List String)}
    {l : List ChapterJob} {c : ChapterJob}
    (hc : c ∈ l) (hfail : itemLogStatus logs c = none) :
    chapterStatuses logs l = none := by
  induction l with
  | nil => cases hc
  | cons a l ih =>
    rw [chapterStatuses]
    rcases List.mem_cons.mp hc with rfl | hmem
    · rw [hfail]; rfl
    · cases ha : itemLogStatus logs a with
      | none => rfl
      | some st => rw [ih hmem]; rfl

/-- An item whose log processing raises aborts the whole status report. -/
theorem check_encoding_status_eq_none_of_item_fail
    {logs : String → Option (List String)} {info : FFJobInfo} {c : ChapterJob}
    (hc : c ∈ info.chapters) (hfail : itemLogStatus logs c = none) :
    check_encoding_status logs info = none := by
  rw [check_encoding_status, chapterStatuses_eq_none_of_mem hc hfail]
  rfl

/-- Claim C7: if some ledger chapter's log is non-empty and its last line
lacks the `fps=` or the `time=` marker, the per-item parse fails and the
failure propagates: the whole status report aborts instead of defaulting
that item. -/
theorem c7_missing_marker_aborts (logs : String → Option (List String))
    (info : FFJobInfo) (c : ChapterJob) (lines : List String) (last_line : String)
    (hc : c ∈ info.chapters)
    (hlog : logs c.title = some lines)
    (hlast : lines.getLast? = some last_line)
    (hm : containsMarker last_line "fps=" = false
        ∨ containsMarker last_line "time=" = false) :
    parse_log_file lines = none ∧ check_encoding_status logs info = none := by
  have hp := parse_log_file_none_of_no_marker hlast hm
  refine ⟨hp, check_encoding_status_eq_none_of_item_fail hc ?_⟩
  rw [itemLogStatus, hlog, Option.some_bind, hp]
  rfl

/-- Claim C7, witness: a concrete one-chapter ledger whose log's last
line has neither marker substring. -/
theorem c7_missing_marker_aborts_witness :
    (ChapterJob.mk "A" 10 [] ∈ (FFJobInfo.mk [⟨"A", 10, []⟩] 10 "d").chapters
      ∧ (fun _ => some ["garbage"]) (ChapterJob.mk "A" 10 []).title = some ["garbage"]
      ∧ (["garbage"] : List String).getLast? = some "garbage"
      ∧ containsMarker "garbage" "fps=" = false)
    ∧ (parse_log_file ["garbage"] = none
      ∧ check_encoding_status (fun _ => some ["garbage"]) ⟨[⟨"A", 10, []⟩], 10, "d"⟩ = none) :=
  ⟨⟨List.mem_cons_self _ _, rfl, rfl, by decide⟩,
    c7_missing_marker_aborts (fun _ => some ["garbage"]) ⟨[⟨"A", 10, []⟩], 10, "d"⟩
      ⟨"A", 10, []⟩ ["garbage"] "garbage" (List.mem_cons_self _ _) rfl rfl
      (Or.inl (by decide))⟩

/-- Claim C9: if a ledger chapter's log file does not exist at all, the
status reporter aborts (`FileNotFoundError` propagates out of `open`); the
empty-log default is not applied to that item. -/
theorem c9_missing_log_aborts (logs : String → Option (List String))
    (info : FFJobInfo) (c : ChapterJob)
    (hc : c ∈ info.chapters) (hmiss : logs c.title = none) :
    itemLogStatus logs c = none ∧ check_encoding_status logs info = none := by
  have hfail : itemLogStatus logs c = none := by
    rw [itemLogStatus, hmiss]; rfl
  exact ⟨hfail, check_encoding_status_eq_none_of_item_fail hc hfail⟩

/-- Claim C9, witness: a concrete one-chapter ledger with no log file at
all. -/
theorem c9_missing_log_aborts_witness :
    (ChapterJob.mk "A" 10 [] ∈ (FFJobInfo.mk [⟨"A", 10, []⟩] 10 "d").chapters
      ∧ (fun _ => (none : Option (List String))) (ChapterJob.mk "A" 10 []).title = none)
    ∧ (itemLogStatus (fun _ => none) ⟨"A", 10, []⟩ = none
      ∧ check_encoding_status (fun _ => none) ⟨[⟨"A", 10, []⟩], 10, "d"⟩ = none) :=
  ⟨⟨List.mem_cons_self _ _, rfl⟩,
    c9_missing_log_aborts (fun _ => none) ⟨[⟨"A", 10, []⟩], 10, "d"⟩ ⟨"A", 10, []⟩
      (List.mem_cons_self _ _) rfl⟩

/-- When the chapter traversal succeeds, its third components are exactly
the per-item encoded seconds, in ledger order. -/
theorem chapterStatuses_seconds (logs : String → Option (List String)) :
    ∀ (l : List ChapterJob) (sts : List (String × String × ℚ)),
      chapterStatuses logs l = some sts →
      sts.map (fun t => t.2.2) = l.map (fun c => (itemEncodedSeconds logs c).getD 0) := by
  intro l
  induction l with
  | nil =>
    intro sts h
    rw [chapterStatuses] at h
    injection h with h
    rw [← h]
    rfl
  | cons c rest ih =>
    intro sts h
    rw [chapterStatuses] at h
    cases hst : itemLogStatus logs c with
    | none => rw [hst] at h; exact absurd h (by simp)
    | some st =>
      rw [hst, Option.some_bind] at h
      cases htail : chapterStatuses logs rest with
      | none => rw [htail] at h; exact absurd h (by simp)
      | some tail =>
        rw [htail, Option.map_some'] at h
        injection h with h
        rw [← h, List.map_cons, List.map_cons, ih tail htail]
        congr 1
        rw [itemEncodedSeconds, hst]
        rfl

/-- Claim C3: whenever the status report succeeds and the ledger's total
length is positive, the reported completion percentage equals the sum of
the per-item parsed encoded seconds divided by `total_length_in_seconds`,
times 100; nothing clamps it, so a sum exceeding the total produces a
percentage above 100. -/
theorem c3_completion_percentage (logs : String → Option (List String))
    (info : FFJobInfo) (r : StatusReport)
    (h : check_encoding_status logs info = some r)
    (hpos : 0 < info.total_length_in_seconds) :
    r.completionPercent
        = (info.chapters.map (fun c => (itemEncodedSeconds logs c).getD 0)).sum
            / info.total_length_in_seconds * 100
    ∧ (info.total_length_in_seconds
          < (info.chapters.map (fun c => (itemEncodedSeconds logs c).getD 0)).sum →
        100 < r.completionPercent) := by
  rw [check_encoding_status] at h
  cases hs : chapterStatuses logs info.chapters with
  | none => rw [hs] at h; exact absurd h (by simp)
  | some sts =>
    rw [hs, Option.map_some'] at h
    injection h with h
    have hsum := chapterStatuses_seconds logs info.chapters sts hs
    have hpercent : r.completionPercent
        = (info.chapters.map (fun c => (itemEncodedSeconds logs c).getD 0)).sum
            / info.total_length_in_seconds * 100 := by
      rw [← h, ← hsum]
    refine ⟨hpercent, fun hlt => ?_⟩
    rw [hpercent]
    have h1 : 1 < (info.chapters.map
        (fun c => (itemEncodedSeconds logs c).getD 0)).sum
          / info.total_length_in_seconds := (one_lt_div hpos).mpr hlt
    nlinarith [h1]

/-- The ten-second time string of the witness log converts to ten
seconds. -/
theorem timeComponentsSeconds_ten : timeComponentsSeconds "00:00:10.00" = some 10 := by
  rw [timeComponentsSeconds,
      show pySplit "00:00:10.00" ":" = ["00", "00", "10.00"] from by decide]
  simp only [List.zip_cons_cons, List.zip_nil_right, sumWeighted,
    pyFloat_eq_of_parts (show pyFloatParts "00" = some (false, 0, 0, 0) from by decide),
    pyFloat_eq_of_parts (show pyFloatParts "10.00" = some (false, 10, 0, 2) from by decide),
    Option.some_bind, Option.map_some']
  norm_num [ratOfParts]

/-- The status report the code produces for the concrete witness ledger:
one chapter, ten encoded seconds, completion percentage 200. -/
theorem check_encoding_status_ex :
    check_encoding_status statusLogsEx statusInfoEx = some statusReportEx := by
  have hitem : itemLogStatus statusLogsEx ⟨"A", 10, []⟩ = some ("20", 10) := by
    rw [itemLogStatus,
        show statusLogsEx "A" = some ["frame=1 fps=20 q=1 time=00:00:10.00 bitrate=1"]
          from rfl,
        Option.some_bind,
        show parse_log_file ["frame=1 fps=20 q=1 time=00:00:10.00 bitrate=1"]
          = some ("20", "00:00:10.00") from by decide,
        Option.some_bind, timeComponentsSeconds_ten]
    rfl
  have hcs : chapterStatuses statusLogsEx [⟨"A", 10, []⟩] = some [("A", "20", 10)] := by
    rw [chapterStatuses, hitem, Option.some_bind, chapterStatuses, Option.map_some']
  rw [check_encoding_status, show statusInfoEx.chapters = [⟨"A", 10, []⟩] from rfl,
      hcs, Option.map_some']
  dsimp only [statusReportEx]
  norm_num [statusInfoEx]

/-- Claim C3, witness: for the concrete witness ledger the hypotheses
hold and the percentage formula yields 200, above 100. -/
theorem c3_completion_percentage_witness :
    (check_encoding_status statusLogsEx statusInfoEx = some statusReportEx
      ∧ 0 < statusInfoEx.total_length_in_seconds)
    ∧ (statusReportEx.completionPercent
        = (statusInfoEx.chapters.map
            (fun c => (itemEncodedSeconds statusLogsEx c).getD 0)).sum
              / statusInfoEx.total_length_in_seconds * 100
      ∧ 100 < statusReportEx.completionPercent) := by
  have hpos : (0 : ℚ) < statusInfoEx.total_length_in_seconds := by
    norm_num [statusInfoEx]
  have main := c3_completion_percentage statusLogsEx statusInfoEx statusReportEx
    check_encoding_status_ex hpos
  refine ⟨⟨check_encoding_status_ex, hpos⟩, main.1, main.2 ?_⟩
  have hone : itemEncodedSeconds statusLogsEx ⟨"A", 10, []⟩ = some 10 := by
    rw [itemEncodedSeconds,
        show itemLogStatus statusLogsEx ⟨"A", 10, []⟩ = some ("20", 10) from by
          rw [itemLogStatus,
              show statusLogsEx "A" = some ["frame=1 fps=20 q=1 time=00:00:10.00 bitrate=1"]
                from rfl,
              Option.some_bind,
              show parse_log_file ["frame=1 fps=20 q=1 time=00:00:10.00 bitrate=1"]
                = some ("20", "00:00:10.00") from by decide,
              Option.some_bind, timeComponentsSeconds_ten]
          rfl]
    rfl
  rw [show statusInfoEx.chapters = [⟨"A", 10, []⟩] from rfl, List.map_cons,
      List.map_nil, hone]
  norm_num [statusInfoEx]

/-- Claim C8: the concat manifest orders the discovered chapter files
lexicographically and depends only on the set of files, not on the order
in which they were discovered: the sorted list is nondecreasing, and any
permutation of the file list yields the identical manifest. -/
theorem c8_concat_lexicographic (files files' : List String)
    (hperm : files.Perm files') :
    List.Sorted (· ≤ ·) (sortedChapterFiles files)
    ∧ concatManifest files = concatManifest files' := by
  have hs : ∀ l : List String, List.Sorted (· ≤ ·) (sortedChapterFiles l) :=
    fun l => List.sorted_insertionSort _ l
  refine ⟨hs files, ?_⟩
  have h1 : (sortedChapterFiles files).Perm (sortedChapterFiles files') :=
    (List.perm_insertionSort _ files).trans
      (hperm.trans (List.perm_insertionSort _ files').symm)
  rw [concatManifest, concatManifest,
      List.eq_of_perm_of_sorted h1 (hs files) (hs files')]

/-- Claim C8, witness: two discovery orders of the same two chapter files
produce the same sorted manifest. -/
theorem c8_concat_lexicographic_witness :
    (["b.mkv", "a.mkv"] : List String).Perm ["a.mkv", "b.mkv"]
    ∧ (List.Sorted (· ≤ ·) (sortedChapterFiles ["b.mkv", "a.mkv"])
      ∧ concatManifest ["b.mkv", "a.mkv"] = concatManifest ["a.mkv", "b.mkv"]) :=
  ⟨List.Perm.swap "a.mkv" "b.mkv" [],
    c8_concat_lexicographic ["b.mkv", "a.mkv"] ["a.mkv", "b.mkv"]
      (List.Perm.swap "a.mkv" "b.mkv" [])⟩

/-- Claim C10: a failed ledger write is swallowed inside
`save_ffjob_info`, so the dispatch branch still launches every generated
job and exits with status 0 while nothing is persisted. -/
theorem c10_save_failure_nonfatal (probe : ProbeOutput)
    (input_file svt_av1_params preset crf now : String) :
    (dispatchMain probe input_file svt_av1_params preset crf now false).launched
        = generate_ffmpeg_commands probe.chapters input_file svt_av1_params preset crf
    ∧ (dispatchMain probe input_file svt_av1_params preset crf now false).ledger = none
    ∧ (dispatchMain probe input_file svt_av1_params preset crf now false).exitCode = 0 :=
  ⟨rfl, by simp [dispatchMain, save_ffjob_info], rfl⟩
